import Mathlib

/-!
Verification of the commit-reveal wager settlement pattern in the
switchboard on-demand examples repository.

Two on-chain programs implement the pattern:
* `sb_randomness` (the coin-flip example,
  sb-randomness-on-demand/sb-randomness/programs/sb-randomness/src/lib.rs);
* `pancake_stacker`
  (solana/randomness/pancake-stacker/programs/pancake-stacker/src/lib.rs).

The embedding models each instruction handler as a pure function from the
accounts it touches to a transaction outcome.  Public keys are `Nat`
(with `0` standing for `Pubkey::default()`), lamport balances and slots
are `Nat`.  The host ledger executes an instruction atomically: when a
handler returns an error (or panics), none of its account writes persist,
which the embedding captures by having error outcomes carry no state
(`applyTx` keeps the pre-state).
-/

namespace SbExamples

/-- Outcome of running one instruction: success with the new account state,
an error code (the transaction aborts and the ledger discards all writes),
or a Rust panic (e.g. `.unwrap()` on a failed parse), which likewise aborts
the transaction. -/
inductive TxOutcome (ε : Type) (σ : Type) where
  | ok : σ → TxOutcome ε σ
  | err : ε → TxOutcome ε σ
  | panicked : TxOutcome ε σ
deriving DecidableEq, Repr

/-- Ledger atomicity: the state that persists after the instruction.  On
success it is the handler's output; on error or panic the pre-state is
kept unchanged. -/
def applyTx {ε σ : Type} (s : σ) : TxOutcome ε σ → σ
  | .ok s' => s'
  | .err _ => s
  | .panicked => s

/-- Whether the instruction succeeded. -/
def TxOutcome.isOk {ε σ : Type} : TxOutcome ε σ → Bool
  | .ok _ => true
  | .err _ => false
  | .panicked => false

/-- Modelled from the spec: the external oracle SDK's
`RandomnessAccountData` record (the SDK source is not part of this
repository).  `seed_slot` is the slot at which the randomness seed was
committed; `revealed` is `some bytes` once the oracle has revealed the
random value (a fixed-length byte array, of which the programs read only
byte 0) and `none` before the reveal. -/
structure RandomnessAccountData where
  seed_slot : Nat
  revealed : Option (List Nat)
deriving DecidableEq, Repr

/-- Modelled from the spec: `RandomnessRecord.get_value(current_checkpoint)
-> bytes | NotYetResolved`.  Returns the revealed bytes, or nothing when
the value is not yet resolved. -/
def RandomnessAccountData.get_value (r : RandomnessAccountData) : Option (List Nat) :=
  r.revealed

/-- `revealed_random_value[0]`: the first byte of the revealed value (the
SDK returns a fixed-length non-empty byte array; an empty list stands for
no byte and reads as 0). -/
def firstByte (bytes : List Nat) : Nat := bytes.headD 0

/-- A randomness account as supplied to an instruction: its address and
the result of `RandomnessAccountData::parse` on its raw data (`none` when
the bytes do not parse). -/
structure RandomnessAccountIn where
  key : Nat
  parsed : Option RandomnessAccountData
deriving DecidableEq, Repr

/-! ### The coin-flip program (`sb_randomness`) -/

namespace SbRandomness

/-- `ErrorCode` of programs/sb-randomness/src/lib.rs. -/
inductive ErrorCode where
  | Unauthorized
  | GameStillActive
  | NotEnoughFundsToPlay
  | RandomnessAlreadyRevealed
  | RandomnessNotResolved
deriving DecidableEq, Repr

/-- `PlayerState` account of the coin-flip program.  Note: it has no
pending-flip flag and no commit-slot field. -/
structure PlayerState where
  allowed_user : Nat
  latest_flip_result : Bool
  randomness_account : Nat
  current_guess : Bool
  wager : Nat
  bump : Nat
deriving DecidableEq, Repr

/-- The `initialize` handler: fresh player state for `user`. -/
def initPlayer (user : Nat) (bump : Nat) : PlayerState :=
  { allowed_user := user
    latest_flip_result := false
    randomness_account := 0
    current_guess := false
    wager := 100
    bump := bump }

/-- The `transfer` helper of lib.rs: errors with `NotEnoughFundsToPlay`
when the source balance cannot cover `amount`, otherwise moves `amount`
lamports (returns the new source and destination balances). -/
def transfer (fromLamports toLamports amount : Nat) :
    Except ErrorCode (Nat × Nat) :=
  if amount > fromLamports then
    .error .NotEnoughFundsToPlay
  else
    .ok (fromLamports - amount, toLamports + amount)

/-- The accounts mutated by `coin_flip` / `settle_flip`: the player state,
the user's lamport balance and the escrow account's lamport balance. -/
structure GameCtx where
  player_state : PlayerState
  user_lamports : Nat
  escrow_lamports : Nat
deriving DecidableEq, Repr

/-- The `coin_flip` handler.  Records the guess, parses the randomness
account (`.unwrap()`: a parse failure panics), requires
`seed_slot = clock.slot - 1` (else `RandomnessAlreadyRevealed`), transfers
the wager from the user to the escrow, and stores the randomness account
reference.  There is no pending-commitment check. -/
def coin_flip (clock_slot : Nat) (ctx : GameCtx)
    (randomness_account : Nat) (guess : Bool)
    (randomness_account_data : RandomnessAccountIn) :
    TxOutcome ErrorCode GameCtx :=
  let ps := { ctx.player_state with current_guess := guess }
  match randomness_account_data.parsed with
  | none => .panicked
  | some randomness_data =>
    if randomness_data.seed_slot ≠ clock_slot - 1 then
      .err .RandomnessAlreadyRevealed
    else
      match transfer ctx.user_lamports ctx.escrow_lamports ps.wager with
      | .error e => .err e
      | .ok (u, esc) =>
        .ok { player_state := { ps with randomness_account := randomness_account }
              user_lamports := u
              escrow_lamports := esc }

/-- The `settle_flip` handler.  `rent_min` is
`Rent::get().minimum_balance(escrow_account.data_len())`.  Parses the
randomness account (`.unwrap()`: parse failure panics), reads the revealed
value (else `RandomnessNotResolved`), computes the flip result as the
parity of byte 0, stores it, and on a win pays double the wager from the
escrow only when the escrow balance covers `wager * 2 + rent_min`
(otherwise it only logs and still succeeds).  It never checks a pending
commitment, never compares the supplied randomness account with the stored
one, and never clears `randomness_account`. -/
def settle_flip (rent_min : Nat) (ctx : GameCtx)
    (randomness_account_data : RandomnessAccountIn) :
    TxOutcome ErrorCode GameCtx :=
  match randomness_account_data.parsed with
  | none => .panicked
  | some randomness_data =>
    match randomness_data.get_value with
    | none => .err .RandomnessNotResolved
    | some revealed_random_value =>
      let randomness_result : Bool := firstByte revealed_random_value % 2 == 0
      let ps := { ctx.player_state with latest_flip_result := randomness_result }
      if randomness_result = ps.current_guess then
        let needed_lamports := ps.wager * 2 + rent_min
        if needed_lamports > ctx.escrow_lamports then
          -- "Not enough funds in treasury to pay out the user" is logged;
          -- the instruction still succeeds with no transfer.
          .ok { ctx with player_state := ps }
        else
          match transfer ctx.escrow_lamports ctx.user_lamports (ps.wager * 2) with
          | .error e => .err e
          | .ok (esc, u) =>
            .ok { player_state := ps
                  user_lamports := u
                  escrow_lamports := esc }
      else
        .ok { ctx with player_state := ps }

end SbRandomness

/-! ### The pancake-stacker program (`pancake_stacker`) -/

namespace PancakeStacker

/-- `ErrorCode` of programs/pancake-stacker/src/lib.rs. -/
inductive ErrorCode where
  | Unauthorized
  | AlreadyHasPendingFlip
  | NoPendingFlip
  | RandomnessAlreadyRevealed
  | RandomnessNotResolved
  | RandomnessExpired
  | InvalidRandomnessAccount
deriving DecidableEq, Repr

/-- `PlayerState` account of the pancake-stacker program. -/
structure PlayerState where
  authority : Nat
  stack_height : Nat
  randomness_account : Nat
  has_pending_flip : Bool
  commit_slot : Nat
  bump : Nat
deriving DecidableEq, Repr

/-- The `initialize` handler: fresh player state for `user`. -/
def initPlayer (user : Nat) (bump : Nat) : PlayerState :=
  { authority := user
    stack_height := 0
    randomness_account := 0
    has_pending_flip := false
    commit_slot := 0
    bump := bump }

/-- The `flip_pancake` handler (the commit step).  Requires no pending
flip (else `AlreadyHasPendingFlip`), a parseable randomness account (else
`InvalidRandomnessAccount`), a fresh seed `seed_slot = clock.slot - 1`
(else `RandomnessExpired`), and a not-yet-revealed value (else
`RandomnessAlreadyRevealed`); then stores the commitment. -/
def flip_pancake (clock_slot : Nat) (ps : PlayerState)
    (randomness_account : Nat)
    (randomness_account_data : RandomnessAccountIn) :
    TxOutcome ErrorCode PlayerState :=
  if ps.has_pending_flip then
    .err .AlreadyHasPendingFlip
  else
    match randomness_account_data.parsed with
    | none => .err .InvalidRandomnessAccount
    | some randomness_data =>
      if randomness_data.seed_slot ≠ clock_slot - 1 then
        .err .RandomnessExpired
      else if randomness_data.get_value.isSome then
        .err .RandomnessAlreadyRevealed
      else
        .ok { ps with
              randomness_account := randomness_account
              has_pending_flip := true
              commit_slot := randomness_data.seed_slot }

/-- The `catch_pancake` handler (the settle step).  Requires a pending
flip (else `NoPendingFlip`), the supplied randomness account to be the
stored one (else `InvalidRandomnessAccount`), a parseable account (else
`InvalidRandomnessAccount`), the seed slot to equal the recorded
`commit_slot` (else `RandomnessExpired`) and a revealed value (else
`RandomnessNotResolved`).  Then: landed iff byte 0 mod 3 < 2; clears the
pending flag and the stored reference; increments the stack on a land,
resets it to zero on a fall. -/
def catch_pancake (ps : PlayerState)
    (randomness_account_data : RandomnessAccountIn) :
    TxOutcome ErrorCode PlayerState :=
  if ¬ ps.has_pending_flip then
    .err .NoPendingFlip
  else if randomness_account_data.key ≠ ps.randomness_account then
    .err .InvalidRandomnessAccount
  else
    match randomness_account_data.parsed with
    | none => .err .InvalidRandomnessAccount
    | some randomness_data =>
      if randomness_data.seed_slot ≠ ps.commit_slot then
        .err .RandomnessExpired
      else
        match randomness_data.get_value with
        | none => .err .RandomnessNotResolved
        | some revealed_random_value =>
          let landed := firstByte revealed_random_value % 3 < 2
          let ps1 := { ps with
                       has_pending_flip := false
                       randomness_account := 0 }
          if landed then
            .ok { ps1 with stack_height := ps1.stack_height + 1 }
          else
            .ok { ps1 with stack_height := 0 }

end PancakeStacker

/-! ### Concrete fixtures

Concrete states and randomness accounts used by the witnesses and
counterexamples below.  `cf...` are coin-flip game contexts, `pp...`
pancake-stacker player states, `rin...` / `prin...` randomness accounts. -/

/-- A freshly initialized coin-flip player with 1000 lamports and an empty
escrow. -/
def cfIdle : SbRandomness.GameCtx :=
  { player_state := SbRandomness.initPlayer 1 255,
    user_lamports := 1000,
    escrow_lamports := 0 }

/-- A freshly initialized coin-flip player who cannot cover the wager. -/
def cfPoor : SbRandomness.GameCtx :=
  { player_state := SbRandomness.initPlayer 1 255,
    user_lamports := 50,
    escrow_lamports := 0 }

/-- A coin-flip player with a stored randomness reference (account 7),
guess heads, wager already escrowed. -/
def cfCommitted : SbRandomness.GameCtx :=
  { player_state :=
      { allowed_user := 1, latest_flip_result := false,
        randomness_account := 7, current_guess := true, wager := 100, bump := 255 },
    user_lamports := 300,
    escrow_lamports := 1000 }

/-- `cfCommitted` after a winning settle that paid out 200 lamports. -/
def cfWon : SbRandomness.GameCtx :=
  { player_state :=
      { allowed_user := 1, latest_flip_result := true,
        randomness_account := 7, current_guess := true, wager := 100, bump := 255 },
    user_lamports := 500,
    escrow_lamports := 800 }

/-- `cfWon` after a second winning settle of the same commitment. -/
def cfWonTwice : SbRandomness.GameCtx :=
  { player_state :=
      { allowed_user := 1, latest_flip_result := true,
        randomness_account := 7, current_guess := true, wager := 100, bump := 255 },
    user_lamports := 700,
    escrow_lamports := 600 }

/-- `cfCommitted` after a winning settle whose payout was deferred: only
the flip result is recorded, no lamports move. -/
def cfDeferred : SbRandomness.GameCtx :=
  { player_state :=
      { allowed_user := 1, latest_flip_result := true,
        randomness_account := 7, current_guess := true, wager := 100, bump := 255 },
    user_lamports := 300,
    escrow_lamports := 1000 }

/-- `cfIdle` after a successful commit referencing randomness account 5. -/
def cfAfter1 : SbRandomness.GameCtx :=
  { player_state :=
      { allowed_user := 1, latest_flip_result := false,
        randomness_account := 5, current_guess := true, wager := 100, bump := 255 },
    user_lamports := 900,
    escrow_lamports := 100 }

/-- `cfAfter1` after a second successful commit (randomness account 6)
with no settle in between. -/
def cfAfter2 : SbRandomness.GameCtx :=
  { player_state :=
      { allowed_user := 1, latest_flip_result := false,
        randomness_account := 6, current_guess := true, wager := 100, bump := 255 },
    user_lamports := 800,
    escrow_lamports := 200 }

/-- `cfIdle` after a successful commit referencing randomness account 7. -/
def cfAfter7 : SbRandomness.GameCtx :=
  { player_state :=
      { allowed_user := 1, latest_flip_result := false,
        randomness_account := 7, current_guess := true, wager := 100, bump := 255 },
    user_lamports := 900,
    escrow_lamports := 100 }

/-- Randomness account 7, seed slot 41, revealed first byte 3 (odd:
tails; 3 mod 3 = 0: pancake lands). -/
def rinLose7 : RandomnessAccountIn := ⟨7, some ⟨41, some [3]⟩⟩

/-- Randomness account 7, seed slot 41, revealed first byte 2 (even:
heads; 2 mod 3 = 2: pancake falls). -/
def rinWin7 : RandomnessAccountIn := ⟨7, some ⟨41, some [2]⟩⟩

/-- A different randomness account (key 9, different seed slot) with a
revealed winning byte: a substituted randomness source. -/
def rinSubstituted : RandomnessAccountIn := ⟨9, some ⟨123, some [2]⟩⟩

/-- Randomness account 7 before its value is revealed (seed slot 41). -/
def rinUnrevealed7 : RandomnessAccountIn := ⟨7, some ⟨41, none⟩⟩

/-- Randomness account 5 before reveal, seed slot 9 (fresh at slot 10). -/
def rinSeed9 : RandomnessAccountIn := ⟨5, some ⟨9, none⟩⟩

/-- Randomness account 6 before reveal, seed slot 19 (fresh at slot 20). -/
def rinSeed19 : RandomnessAccountIn := ⟨6, some ⟨19, none⟩⟩

/-- A randomness account whose raw bytes do not parse. -/
def rinBadParse : RandomnessAccountIn := ⟨9, none⟩

/-- A freshly initialized pancake-stacker player. -/
def ppIdle : PancakeStacker.PlayerState := PancakeStacker.initPlayer 1 255

/-- A pancake-stacker player with a pending flip committed against
randomness account 7 at seed slot 41, stack height 4. -/
def ppPending : PancakeStacker.PlayerState :=
  { authority := 1, stack_height := 4, randomness_account := 7,
    has_pending_flip := true, commit_slot := 41, bump := 255 }

/-- `ppPending` after a landed catch: stack 5, pending cleared. -/
def ppLanded : PancakeStacker.PlayerState :=
  { authority := 1, stack_height := 5, randomness_account := 0,
    has_pending_flip := false, commit_slot := 41, bump := 255 }

/-- `ppIdle` after a successful flip commit against randomness account 7
at seed slot 41. -/
def ppCommitted : PancakeStacker.PlayerState :=
  { authority := 1, stack_height := 0, randomness_account := 7,
    has_pending_flip := true, commit_slot := 41, bump := 255 }

/-- Pancake randomness account 7, seed 41, unrevealed. -/
def prinUnrevealed : RandomnessAccountIn := ⟨7, some ⟨41, none⟩⟩

/-- Pancake randomness account 7, seed 41, revealed byte 3 (3 mod 3 = 0:
lands). -/
def prinLand : RandomnessAccountIn := ⟨7, some ⟨41, some [3]⟩⟩

/-- Pancake randomness account 7, seed 41, revealed byte 2 (2 mod 3 = 2:
falls). -/
def prinFall : RandomnessAccountIn := ⟨7, some ⟨41, some [2]⟩⟩

/-- A randomness account whose key 9 differs from the stored reference 7. -/
def prinWrongKey : RandomnessAccountIn := ⟨9, some ⟨41, some [3]⟩⟩

/-- Randomness account 7 whose seed slot 40 no longer matches the
recorded commit slot 41. -/
def prinWrongSeed : RandomnessAccountIn := ⟨7, some ⟨40, some [3]⟩⟩

/-! ### Evaluation lemmas for the coin-flip handlers -/

namespace SbRandomness

/-- `transfer` succeeds when the source balance covers the amount. -/
theorem transfer_ok (fromL toL amount : Nat) (h : amount ≤ fromL) :
    transfer fromL toL amount = .ok (fromL - amount, toL + amount) := by
  unfold transfer
  rw [if_neg (by omega)]

/-- `transfer` fails when the source balance cannot cover the amount. -/
theorem transfer_insufficient (fromL toL amount : Nat) (h : fromL < amount) :
    transfer fromL toL amount = .error .NotEnoughFundsToPlay := by
  unfold transfer
  rw [if_pos (by omega)]

/-- `coin_flip` panics when the randomness account does not parse. -/
theorem coin_flip_parse_panics (slot : Nat) (ctx : GameCtx) (ra k : Nat)
    (guess : Bool) :
    coin_flip slot ctx ra guess ⟨k, none⟩ = .panicked := by
  simp [coin_flip]

/-- `coin_flip` rejects a seed slot other than `clock.slot - 1`. -/
theorem coin_flip_stale (slot : Nat) (ctx : GameCtx) (ra k : Nat)
    (guess : Bool) (rd : RandomnessAccountData)
    (h : rd.seed_slot ≠ slot - 1) :
    coin_flip slot ctx ra guess ⟨k, some rd⟩ = .err .RandomnessAlreadyRevealed := by
  simp [coin_flip, h]

/-- With a fresh seed and sufficient funds, `coin_flip` escrows the wager
and stores the guess and the randomness reference. -/
theorem coin_flip_fresh_ok (slot : Nat) (ctx : GameCtx) (ra k : Nat)
    (guess : Bool) (rd : RandomnessAccountData)
    (hfresh : rd.seed_slot = slot - 1)
    (hfunds : ctx.player_state.wager ≤ ctx.user_lamports) :
    coin_flip slot ctx ra guess ⟨k, some rd⟩ =
      .ok { player_state := { ctx.player_state with
              current_guess := guess, randomness_account := ra },
            user_lamports := ctx.user_lamports - ctx.player_state.wager,
            escrow_lamports := ctx.escrow_lamports + ctx.player_state.wager } := by
  simp [coin_flip, hfresh, transfer_ok _ _ _ hfunds]

/-- With a fresh seed but insufficient funds, `coin_flip` fails with
`NotEnoughFundsToPlay`. -/
theorem coin_flip_fresh_insufficient (slot : Nat) (ctx : GameCtx) (ra k : Nat)
    (guess : Bool) (rd : RandomnessAccountData)
    (hfresh : rd.seed_slot = slot - 1)
    (hpoor : ctx.user_lamports < ctx.player_state.wager) :
    coin_flip slot ctx ra guess ⟨k, some rd⟩ = .err .NotEnoughFundsToPlay := by
  simp [coin_flip, hfresh, transfer_insufficient _ _ _ hpoor]

/-- A successful `coin_flip` implies the seed slot was `clock.slot - 1`. -/
theorem coin_flip_ok_fresh (slot : Nat) (ctx out : GameCtx) (ra k : Nat)
    (guess : Bool) (rd : RandomnessAccountData)
    (h : coin_flip slot ctx ra guess ⟨k, some rd⟩ = .ok out) :
    rd.seed_slot = slot - 1 := by
  by_contra hne
  rw [coin_flip_stale slot ctx ra k guess rd hne] at h
  cases h

/-- `settle_flip` panics when the randomness account does not parse. -/
theorem settle_flip_parse_panics (rent_min : Nat) (ctx : GameCtx) (k : Nat) :
    settle_flip rent_min ctx ⟨k, none⟩ = .panicked := by
  simp [settle_flip]

/-- `settle_flip` fails with `RandomnessNotResolved` before the reveal. -/
theorem settle_flip_not_resolved (rent_min : Nat) (ctx : GameCtx)
    (k seed : Nat) :
    settle_flip rent_min ctx ⟨k, some ⟨seed, none⟩⟩ =
      .err .RandomnessNotResolved := by
  simp [settle_flip, RandomnessAccountData.get_value]

/-- A losing settle records the flip result and moves no lamports. -/
theorem settle_flip_lose (rent_min : Nat) (ctx : GameCtx) (k seed : Nat)
    (v : List Nat)
    (hw : ¬ ((firstByte v % 2 == 0) = ctx.player_state.current_guess)) :
    settle_flip rent_min ctx ⟨k, some ⟨seed, some v⟩⟩ =
      .ok { ctx with player_state :=
              { ctx.player_state with
                latest_flip_result := firstByte v % 2 == 0 } } := by
  simp [settle_flip, RandomnessAccountData.get_value, hw]

/-- A winning settle with a covering escrow pays double the wager. -/
theorem settle_flip_win_paid (rent_min : Nat) (ctx : GameCtx) (k seed : Nat)
    (v : List Nat)
    (hw : (firstByte v % 2 == 0) = ctx.player_state.current_guess)
    (he : ctx.player_state.wager * 2 + rent_min ≤ ctx.escrow_lamports) :
    settle_flip rent_min ctx ⟨k, some ⟨seed, some v⟩⟩ =
      .ok { player_state :=
              { ctx.player_state with
                latest_flip_result := firstByte v % 2 == 0 },
            user_lamports := ctx.user_lamports + ctx.player_state.wager * 2,
            escrow_lamports := ctx.escrow_lamports - ctx.player_state.wager * 2 } := by
  have hle : ctx.player_state.wager * 2 ≤ ctx.escrow_lamports := by omega
  simp [settle_flip, RandomnessAccountData.get_value, hw, transfer_ok _ _ _ hle]
  omega

/-- A winning settle with an underfunded escrow records the result but
pays nothing (the deferred-payout branch). -/
theorem settle_flip_win_deferred (rent_min : Nat) (ctx : GameCtx)
    (k seed : Nat) (v : List Nat)
    (hw : (firstByte v % 2 == 0) = ctx.player_state.current_guess)
    (he : ctx.escrow_lamports < ctx.player_state.wager * 2 + rent_min) :
    settle_flip rent_min ctx ⟨k, some ⟨seed, some v⟩⟩ =
      .ok { ctx with player_state :=
              { ctx.player_state with
                latest_flip_result := firstByte v % 2 == 0 } } := by
  simp [settle_flip, RandomnessAccountData.get_value, hw, he]

/-- Once the value is revealed, `settle_flip` always succeeds. -/
theorem settle_flip_revealed_isOk (rent_min : Nat) (ctx : GameCtx)
    (k seed : Nat) (v : List Nat) :
    (settle_flip rent_min ctx ⟨k, some ⟨seed, some v⟩⟩).isOk = true := by
  by_cases hw : ((firstByte v % 2 == 0) = ctx.player_state.current_guess)
  · by_cases he : ctx.player_state.wager * 2 + rent_min ≤ ctx.escrow_lamports
    · rw [settle_flip_win_paid rent_min ctx k seed v hw he]
      rfl
    · rw [settle_flip_win_deferred rent_min ctx k seed v hw (by omega)]
      rfl
  · rw [settle_flip_lose rent_min ctx k seed v hw]
    rfl

/-- Across any `settle_flip` call (success or failure), the persisted
escrow balance never increases and the persisted user balance never
decreases: funds enter the escrow only through `coin_flip`. -/
theorem settle_flip_no_escrow_credit (rent_min : Nat) (ctx : GameCtx)
    (rin : RandomnessAccountIn) :
    (applyTx ctx (settle_flip rent_min ctx rin)).escrow_lamports ≤
      ctx.escrow_lamports ∧
    ctx.user_lamports ≤
      (applyTx ctx (settle_flip rent_min ctx rin)).user_lamports := by
  rcases rin with ⟨k, _ | ⟨seed, _ | v⟩⟩
  · simp [settle_flip_parse_panics, applyTx]
  · simp [settle_flip_not_resolved, applyTx]
  · by_cases hw : ((firstByte v % 2 == 0) = ctx.player_state.current_guess)
    · by_cases he : ctx.player_state.wager * 2 + rent_min ≤ ctx.escrow_lamports
      · rw [settle_flip_win_paid rent_min ctx k seed v hw he]
        simp [applyTx]
      · rw [settle_flip_win_deferred rent_min ctx k seed v hw (by omega)]
        simp [applyTx]
    · rw [settle_flip_lose rent_min ctx k seed v hw]
      simp [applyTx]

/-- Inversion for a successful settle: the recorded flip result is the
parity of the revealed first byte, and when that result does not match
the guess no lamports move. -/
theorem settle_flip_ok_result (rent_min : Nat) (ctx out : GameCtx)
    (k seed : Nat) (v : List Nat)
    (h : settle_flip rent_min ctx ⟨k, some ⟨seed, some v⟩⟩ = .ok out) :
    out.player_state.latest_flip_result = (firstByte v % 2 == 0) ∧
    (¬ ((firstByte v % 2 == 0) = ctx.player_state.current_guess) →
       out.escrow_lamports = ctx.escrow_lamports ∧
       out.user_lamports = ctx.user_lamports) := by
  by_cases hw : ((firstByte v % 2 == 0) = ctx.player_state.current_guess)
  · by_cases he : ctx.player_state.wager * 2 + rent_min ≤ ctx.escrow_lamports
    · rw [settle_flip_win_paid rent_min ctx k seed v hw he] at h
      injection h with h2
      subst h2
      simp [hw]
    · rw [settle_flip_win_deferred rent_min ctx k seed v hw (by omega)] at h
      injection h with h2
      subst h2
      simp [hw]
  · rw [settle_flip_lose rent_min ctx k seed v hw] at h
    injection h with h2
    subst h2
    simp

end SbRandomness

/-! ### Evaluation lemmas for the pancake-stacker handlers -/

namespace PancakeStacker

/-- `flip_pancake` rejects a commit while a flip is already pending. -/
theorem flip_pancake_already_pending (slot : Nat) (ps : PlayerState)
    (ra : Nat) (rin : RandomnessAccountIn)
    (h : ps.has_pending_flip = true) :
    flip_pancake slot ps ra rin = .err .AlreadyHasPendingFlip := by
  simp [flip_pancake, h]

/-- `flip_pancake` rejects an unparseable randomness account. -/
theorem flip_pancake_parse_fail (slot : Nat) (ps : PlayerState)
    (ra k : Nat) (h : ps.has_pending_flip = false) :
    flip_pancake slot ps ra ⟨k, none⟩ = .err .InvalidRandomnessAccount := by
  simp [flip_pancake, h]

/-- `flip_pancake` rejects a seed slot other than `clock.slot - 1`. -/
theorem flip_pancake_stale (slot : Nat) (ps : PlayerState) (ra k : Nat)
    (rd : RandomnessAccountData)
    (hidle : ps.has_pending_flip = false)
    (hstale : rd.seed_slot ≠ slot - 1) :
    flip_pancake slot ps ra ⟨k, some rd⟩ = .err .RandomnessExpired := by
  simp [flip_pancake, hidle, hstale]

/-- With no pending flip, a fresh unrevealed seed, `flip_pancake` records
the commitment: the reference, the pending flag and the seed slot. -/
theorem flip_pancake_fresh_ok (slot : Nat) (ps : PlayerState) (ra k : Nat)
    (rd : RandomnessAccountData)
    (hidle : ps.has_pending_flip = false)
    (hfresh : rd.seed_slot = slot - 1)
    (hunrev : rd.revealed = none) :
    flip_pancake slot ps ra ⟨k, some rd⟩ =
      .ok { ps with
            randomness_account := ra
            has_pending_flip := true
            commit_slot := rd.seed_slot } := by
  simp [flip_pancake, hidle, hfresh, RandomnessAccountData.get_value, hunrev]

/-- A successful `flip_pancake` starts from an idle player, leaves it
pending, and records the supplied reference and the fresh seed slot. -/
theorem flip_pancake_ok_inv (slot : Nat) (ps ps' : PlayerState) (ra k : Nat)
    (rd : RandomnessAccountData)
    (h : flip_pancake slot ps ra ⟨k, some rd⟩ = .ok ps') :
    ps.has_pending_flip = false ∧ ps'.has_pending_flip = true ∧
    ps'.randomness_account = ra ∧ ps'.commit_slot = rd.seed_slot ∧
    rd.seed_slot = slot - 1 := by
  unfold flip_pancake at h
  repeat' split at h
  all_goals try cases h
  all_goals simp_all

/-- A successful `flip_pancake` (any randomness input) starts idle and
ends pending. -/
theorem flip_pancake_ok_pending (slot : Nat) (ps ps' : PlayerState)
    (ra : Nat) (rin : RandomnessAccountIn)
    (h : flip_pancake slot ps ra rin = .ok ps') :
    ps.has_pending_flip = false ∧ ps'.has_pending_flip = true := by
  unfold flip_pancake at h
  repeat' split at h
  all_goals try cases h
  all_goals simp_all

/-- `catch_pancake` rejects a settle with no pending flip. -/
theorem catch_pancake_no_pending (ps : PlayerState)
    (rin : RandomnessAccountIn) (h : ps.has_pending_flip = false) :
    catch_pancake ps rin = .err .NoPendingFlip := by
  simp [catch_pancake, h]

/-- `catch_pancake` rejects a randomness account whose address differs
from the stored reference. -/
theorem catch_pancake_key_mismatch (ps : PlayerState)
    (rin : RandomnessAccountIn)
    (hp : ps.has_pending_flip = true)
    (hk : rin.key ≠ ps.randomness_account) :
    catch_pancake ps rin = .err .InvalidRandomnessAccount := by
  simp [catch_pancake, hp, hk]

/-- `catch_pancake` rejects an unparseable randomness account (at the
stored address). -/
theorem catch_pancake_parse_fail (ps : PlayerState) (kp : Nat)
    (hp : ps.has_pending_flip = true)
    (hk : kp = ps.randomness_account) :
    catch_pancake ps ⟨kp, none⟩ = .err .InvalidRandomnessAccount := by
  subst hk
  simp [catch_pancake, hp]

/-- `catch_pancake` rejects a seed slot that no longer matches the
recorded commit slot. -/
theorem catch_pancake_seed_mismatch (ps : PlayerState) (kp : Nat)
    (rd : RandomnessAccountData)
    (hp : ps.has_pending_flip = true)
    (hk : kp = ps.randomness_account)
    (hs : rd.seed_slot ≠ ps.commit_slot) :
    catch_pancake ps ⟨kp, some rd⟩ = .err .RandomnessExpired := by
  subst hk
  simp [catch_pancake, hp, hs]

/-- `catch_pancake` fails with `RandomnessNotResolved` before the reveal. -/
theorem catch_pancake_not_resolved (ps : PlayerState) (kp seedp : Nat)
    (hp : ps.has_pending_flip = true)
    (hk : kp = ps.randomness_account)
    (hs : seedp = ps.commit_slot) :
    catch_pancake ps ⟨kp, some ⟨seedp, none⟩⟩ = .err .RandomnessNotResolved := by
  subst hk
  subst hs
  simp [catch_pancake, hp, RandomnessAccountData.get_value]

/-- A landed catch (first byte mod 3 < 2) increments the stack and
clears the commitment. -/
theorem catch_pancake_land (ps : PlayerState) (kp seedp : Nat) (v : List Nat)
    (hp : ps.has_pending_flip = true)
    (hk : kp = ps.randomness_account)
    (hs : seedp = ps.commit_slot)
    (hl : firstByte v % 3 < 2) :
    catch_pancake ps ⟨kp, some ⟨seedp, some v⟩⟩ =
      .ok { ps with
            has_pending_flip := false
            randomness_account := 0
            stack_height := ps.stack_height + 1 } := by
  subst hk
  subst hs
  simp [catch_pancake, hp, RandomnessAccountData.get_value, hl]

/-- A fallen catch (first byte mod 3 ≥ 2) resets the stack to zero and
clears the commitment. -/
theorem catch_pancake_fall (ps : PlayerState) (kp seedp : Nat) (v : List Nat)
    (hp : ps.has_pending_flip = true)
    (hk : kp = ps.randomness_account)
    (hs : seedp = ps.commit_slot)
    (hl : ¬ firstByte v % 3 < 2) :
    catch_pancake ps ⟨kp, some ⟨seedp, some v⟩⟩ =
      .ok { ps with
            has_pending_flip := false
            randomness_account := 0
            stack_height := 0 } := by
  subst hk
  subst hs
  simp [catch_pancake, hp, RandomnessAccountData.get_value, hl]

/-- When key and seed match and the value is revealed, `catch_pancake`
succeeds. -/
theorem catch_pancake_revealed_isOk (ps : PlayerState) (kp seedp : Nat)
    (v : List Nat)
    (hp : ps.has_pending_flip = true)
    (hk : kp = ps.randomness_account)
    (hs : seedp = ps.commit_slot) :
    (catch_pancake ps ⟨kp, some ⟨seedp, some v⟩⟩).isOk = true := by
  by_cases hl : firstByte v % 3 < 2
  · rw [catch_pancake_land ps kp seedp v hp hk hs hl]
    rfl
  · rw [catch_pancake_fall ps kp seedp v hp hk hs hl]
    rfl

/-- A successful `catch_pancake` starts from a pending player and always
clears the pending flag and the stored randomness reference. -/
theorem catch_pancake_ok_clears (ps ps' : PlayerState)
    (rin : RandomnessAccountIn)
    (h : catch_pancake ps rin = .ok ps') :
    ps.has_pending_flip = true ∧ ps'.has_pending_flip = false ∧
    ps'.randomness_account = 0 := by
  unfold catch_pancake at h
  simp only [] at h
  repeat' split at h
  all_goals try cases h
  all_goals simp_all

end PancakeStacker

/-! ### Claims -/

/-- C1: the claim as stated is false for the coin-flip program: here is a
successful `settle_flip` (on `cfCommitted`, a losing reveal) after which
the stored randomness reference is still 7 — `settle_flip` clears
neither a pending flag (none exists) nor the stored reference. -/
theorem c1_counterexample :
    SbRandomness.settle_flip 0 cfCommitted rinLose7 = .ok cfCommitted ∧
    cfCommitted.player_state.randomness_account ≠ 0 := by
  decide

/-- C1 (amended to the pancake-stacker program): `has_pending_flip` is
true exactly between a successful `flip_pancake` and its matching
`catch_pancake`: a successful catch requires the flag, and clears it and
the stored randomness reference regardless of the land/fall outcome; a
successful flip requires the flag clear and sets it — so at most one
flip commitment is outstanding per player. -/
theorem c1_pancake_pending_flag_lifecycle (slot : Nat)
    (ps ps' qs qs' : PancakeStacker.PlayerState) (ra : Nat)
    (rin rin' : RandomnessAccountIn)
    (hcatch : PancakeStacker.catch_pancake ps rin = .ok ps')
    (hflip : PancakeStacker.flip_pancake slot qs ra rin' = .ok qs') :
    (ps.has_pending_flip = true ∧ ps'.has_pending_flip = false ∧
      ps'.randomness_account = 0) ∧
    (qs.has_pending_flip = false ∧ qs'.has_pending_flip = true) :=
  ⟨PancakeStacker.catch_pancake_ok_clears ps ps' rin hcatch,
   PancakeStacker.flip_pancake_ok_pending slot qs qs' ra rin' hflip⟩

/-- C1 witness: a concrete catch (`ppPending` → `ppLanded`) and a
concrete flip (`ppIdle` → `ppCommitted`). -/
theorem c1_pancake_pending_flag_lifecycle_witness :
    (ppPending.has_pending_flip = true ∧ ppLanded.has_pending_flip = false ∧
      ppLanded.randomness_account = 0) ∧
    (ppIdle.has_pending_flip = false ∧ ppCommitted.has_pending_flip = true) :=
  c1_pancake_pending_flag_lifecycle 42 ppPending ppLanded ppIdle ppCommitted 7
    prinLand prinUnrevealed (by decide) (by decide)

/-- C2: the claim as stated is false for the coin-flip program: after a
successful commit (`cfIdle` → `cfAfter1`, reference 5 outstanding,
never settled), a second `coin_flip` succeeds instead of failing with an
already-pending error — `coin_flip` has no pending-commitment check. -/
theorem c2_counterexample :
    SbRandomness.coin_flip 10 cfIdle 5 true rinSeed9 = .ok cfAfter1 ∧
    cfAfter1.player_state.randomness_account ≠ 0 ∧
    SbRandomness.coin_flip 20 cfAfter1 6 true rinSeed19 = .ok cfAfter2 := by
  decide

/-- C2 (amended to the pancake-stacker program): with a pending flip,
`flip_pancake` fails with `AlreadyHasPendingFlip`, and the persisted
player state — the stored randomness reference included — is unchanged. -/
theorem c2_commit_while_pending (slot : Nat)
    (ps : PancakeStacker.PlayerState) (ra : Nat) (rin : RandomnessAccountIn)
    (h : ps.has_pending_flip = true) :
    PancakeStacker.flip_pancake slot ps ra rin = .err .AlreadyHasPendingFlip ∧
    applyTx ps (PancakeStacker.flip_pancake slot ps ra rin) = ps := by
  rw [PancakeStacker.flip_pancake_already_pending slot ps ra rin h]
  exact ⟨rfl, rfl⟩

/-- C2 witness: `ppPending` rejects a second commit. -/
theorem c2_commit_while_pending_witness :
    PancakeStacker.flip_pancake 42 ppPending 9 prinUnrevealed =
      .err .AlreadyHasPendingFlip ∧
    applyTx ppPending (PancakeStacker.flip_pancake 42 ppPending 9 prinUnrevealed) =
      ppPending :=
  c2_commit_while_pending 42 ppPending 9 prinUnrevealed (by decide)

/-- C3: the claim as stated is false for the coin-flip program: the same
commitment settles twice, and both settles succeed — each pays out again
(`cfCommitted` → `cfWon` → `cfWonTwice`); no no-pending-commitment
failure exists in `settle_flip`. -/
theorem c3_counterexample :
    SbRandomness.settle_flip 0 cfCommitted rinWin7 = .ok cfWon ∧
    SbRandomness.settle_flip 0 cfWon rinWin7 = .ok cfWonTwice := by
  decide

/-- C3 (amended to the pancake-stacker program): `catch_pancake` with no
pending flip fails with `NoPendingFlip` and nothing persists; since a
successful catch clears the flag, a second catch after it fails with
`NoPendingFlip`. -/
theorem c3_settle_requires_pending (ps qs qs' : PancakeStacker.PlayerState)
    (rin rin' rin'' : RandomnessAccountIn)
    (hidle : ps.has_pending_flip = false)
    (hfirst : PancakeStacker.catch_pancake qs rin = .ok qs') :
    (PancakeStacker.catch_pancake ps rin'' = .err .NoPendingFlip ∧
      applyTx ps (PancakeStacker.catch_pancake ps rin'') = ps) ∧
    PancakeStacker.catch_pancake qs' rin' = .err .NoPendingFlip := by
  have h2 := PancakeStacker.catch_pancake_ok_clears qs qs' rin hfirst
  constructor
  · rw [PancakeStacker.catch_pancake_no_pending ps rin'' hidle]
    exact ⟨rfl, rfl⟩
  · exact PancakeStacker.catch_pancake_no_pending qs' rin' h2.2.1

/-- C3 witness: `ppIdle` rejects a settle; after the settle
`ppPending` → `ppLanded`, a second settle is rejected. -/
theorem c3_settle_requires_pending_witness :
    (PancakeStacker.catch_pancake ppIdle prinLand = .err .NoPendingFlip ∧
      applyTx ppIdle (PancakeStacker.catch_pancake ppIdle prinLand) = ppIdle) ∧
    PancakeStacker.catch_pancake ppLanded prinLand = .err .NoPendingFlip :=
  c3_settle_requires_pending ppIdle ppPending ppLanded prinLand prinLand prinLand
    (by decide) (by decide)

/-- C4: in both programs a commit succeeds only when the randomness seed
slot equals `clock.slot - 1`; any other seed slot fails the commit with
the staleness error (`RandomnessAlreadyRevealed` in the coin-flip
program, `RandomnessExpired` in pancake-stacker), before any funds move
and with no player-state write persisting. -/
theorem c4_commit_freshness (slot : Nat) (ctx out : SbRandomness.GameCtx)
    (ra ra2 k k2 : Nat) (guess : Bool) (rd rd2 : RandomnessAccountData)
    (ps ps' : PancakeStacker.PlayerState)
    (hslot : 1 ≤ slot)
    (hstale : rd.seed_slot ≠ slot - 1)
    (hidle : ps.has_pending_flip = false)
    (hok : SbRandomness.coin_flip slot ctx ra2 guess ⟨k2, some rd2⟩ = .ok out)
    (hokp : PancakeStacker.flip_pancake slot ps ra2 ⟨k2, some rd2⟩ = .ok ps') :
    (SbRandomness.coin_flip slot ctx ra guess ⟨k, some rd⟩ =
        .err .RandomnessAlreadyRevealed ∧
      applyTx ctx (SbRandomness.coin_flip slot ctx ra guess ⟨k, some rd⟩) = ctx) ∧
    (PancakeStacker.flip_pancake slot ps ra ⟨k, some rd⟩ =
        .err .RandomnessExpired ∧
      applyTx ps (PancakeStacker.flip_pancake slot ps ra ⟨k, some rd⟩) = ps) ∧
    rd2.seed_slot = slot - 1 ∧ ps'.commit_slot = slot - 1 := by
  have hinv := PancakeStacker.flip_pancake_ok_inv slot ps ps' ra2 k2 rd2 hokp
  refine ⟨⟨?_, ?_⟩, ⟨?_, ?_⟩, ?_, ?_⟩
  · exact SbRandomness.coin_flip_stale slot ctx ra k guess rd hstale
  · rw [SbRandomness.coin_flip_stale slot ctx ra k guess rd hstale]
    rfl
  · exact PancakeStacker.flip_pancake_stale slot ps ra k rd hidle hstale
  · rw [PancakeStacker.flip_pancake_stale slot ps ra k rd hidle hstale]
    rfl
  · exact SbRandomness.coin_flip_ok_fresh slot ctx out ra2 k2 guess rd2 hok
  · rw [hinv.2.2.2.1]
    exact hinv.2.2.2.2

/-- C4 witness: at slot 42, committing against a seed-slot-3 account
fails as stale in both programs; committing against a seed-slot-41
account succeeds in both. -/
theorem c4_commit_freshness_witness :
    (SbRandomness.coin_flip 42 cfIdle 9 true ⟨9, some ⟨3, none⟩⟩ =
        .err .RandomnessAlreadyRevealed ∧
      applyTx cfIdle (SbRandomness.coin_flip 42 cfIdle 9 true ⟨9, some ⟨3, none⟩⟩) =
        cfIdle) ∧
    (PancakeStacker.flip_pancake 42 ppIdle 9 ⟨9, some ⟨3, none⟩⟩ =
        .err .RandomnessExpired ∧
      applyTx ppIdle (PancakeStacker.flip_pancake 42 ppIdle 9 ⟨9, some ⟨3, none⟩⟩) =
        ppIdle) ∧
    (⟨41, none⟩ : RandomnessAccountData).seed_slot = 42 - 1 ∧
    ppCommitted.commit_slot = 42 - 1 :=
  c4_commit_freshness 42 cfIdle cfAfter7 9 7 9 7 true ⟨3, none⟩ ⟨41, none⟩
    ppIdle ppCommitted (by decide) (by decide) (by decide) (by decide) (by decide)

/-- C5: the claim as stated is false for the coin-flip program: a settle
supplied with a randomness account whose address (9) and seed slot (123)
both differ from what was stored at commit time (7, and nothing — no
seed checkpoint is even recorded) succeeds and pays out, instead of
failing with a mismatch error. -/
theorem c5_counterexample :
    rinSubstituted.key ≠ cfCommitted.player_state.randomness_account ∧
    SbRandomness.settle_flip 0 cfCommitted rinSubstituted = .ok cfWon := by
  decide

/-- C5 (amended to the pancake-stacker program): a settle whose
randomness account address differs from the stored reference fails with
`InvalidRandomnessAccount`; one whose seed slot differs from the
recorded commit slot fails with `RandomnessExpired`; nothing persists in
either case. -/
theorem c5_settle_mismatch (ps : PancakeStacker.PlayerState)
    (rin : RandomnessAccountIn) (kp : Nat) (rd : RandomnessAccountData)
    (hp : ps.has_pending_flip = true)
    (hkey : rin.key ≠ ps.randomness_account)
    (hk2 : kp = ps.randomness_account)
    (hseed : rd.seed_slot ≠ ps.commit_slot) :
    (PancakeStacker.catch_pancake ps rin = .err .InvalidRandomnessAccount ∧
      applyTx ps (PancakeStacker.catch_pancake ps rin) = ps) ∧
    (PancakeStacker.catch_pancake ps ⟨kp, some rd⟩ = .err .RandomnessExpired ∧
      applyTx ps (PancakeStacker.catch_pancake ps ⟨kp, some rd⟩) = ps) := by
  constructor
  · rw [PancakeStacker.catch_pancake_key_mismatch ps rin hp hkey]
    exact ⟨rfl, rfl⟩
  · rw [PancakeStacker.catch_pancake_seed_mismatch ps kp rd hp hk2 hseed]
    exact ⟨rfl, rfl⟩

/-- C5 witness: `ppPending` (stored reference 7, commit slot 41) rejects
a wrong-key account and a wrong-seed account. -/
theorem c5_settle_mismatch_witness :
    (PancakeStacker.catch_pancake ppPending prinWrongKey =
        .err .InvalidRandomnessAccount ∧
      applyTx ppPending (PancakeStacker.catch_pancake ppPending prinWrongKey) =
        ppPending) ∧
    (PancakeStacker.catch_pancake ppPending ⟨7, some ⟨40, some [3]⟩⟩ =
        .err .RandomnessExpired ∧
      applyTx ppPending (PancakeStacker.catch_pancake ppPending ⟨7, some ⟨40, some [3]⟩⟩) =
        ppPending) :=
  c5_settle_mismatch ppPending prinWrongKey 7 ⟨40, some [3]⟩
    (by decide) (by decide) (by decide) (by decide)

/-- C6: in both programs, settling before the randomness is revealed
fails with `RandomnessNotResolved`, nothing persists, and a retry of the
same commitment with the value revealed succeeds. -/
theorem c6_settle_before_reveal (rent_min : Nat) (ctx : SbRandomness.GameCtx)
    (k seed : Nat) (v : List Nat) (ps : PancakeStacker.PlayerState)
    (kp seedp : Nat)
    (hp : ps.has_pending_flip = true)
    (hk : kp = ps.randomness_account)
    (hs : seedp = ps.commit_slot) :
    (SbRandomness.settle_flip rent_min ctx ⟨k, some ⟨seed, none⟩⟩ =
        .err .RandomnessNotResolved ∧
      applyTx ctx (SbRandomness.settle_flip rent_min ctx ⟨k, some ⟨seed, none⟩⟩) =
        ctx ∧
      (SbRandomness.settle_flip rent_min ctx ⟨k, some ⟨seed, some v⟩⟩).isOk = true) ∧
    (PancakeStacker.catch_pancake ps ⟨kp, some ⟨seedp, none⟩⟩ =
        .err .RandomnessNotResolved ∧
      applyTx ps (PancakeStacker.catch_pancake ps ⟨kp, some ⟨seedp, none⟩⟩) = ps ∧
      (PancakeStacker.catch_pancake ps ⟨kp, some ⟨seedp, some v⟩⟩).isOk = true) := by
  refine ⟨⟨?_, ?_, ?_⟩, ⟨?_, ?_, ?_⟩⟩
  · exact SbRandomness.settle_flip_not_resolved rent_min ctx k seed
  · rw [SbRandomness.settle_flip_not_resolved rent_min ctx k seed]
    rfl
  · exact SbRandomness.settle_flip_revealed_isOk rent_min ctx k seed v
  · exact PancakeStacker.catch_pancake_not_resolved ps kp seedp hp hk hs
  · rw [PancakeStacker.catch_pancake_not_resolved ps kp seedp hp hk hs]
    rfl
  · exact PancakeStacker.catch_pancake_revealed_isOk ps kp seedp v hp hk hs

/-- C6 witness: settling `cfCommitted` / `ppPending` against the
unrevealed account 7 fails as not-resolved; with byte 3 revealed, the
same settles succeed. -/
theorem c6_settle_before_reveal_witness :
    (SbRandomness.settle_flip 0 cfCommitted ⟨7, some ⟨41, none⟩⟩ =
        .err .RandomnessNotResolved ∧
      applyTx cfCommitted (SbRandomness.settle_flip 0 cfCommitted ⟨7, some ⟨41, none⟩⟩) =
        cfCommitted ∧
      (SbRandomness.settle_flip 0 cfCommitted ⟨7, some ⟨41, some [3]⟩⟩).isOk = true) ∧
    (PancakeStacker.catch_pancake ppPending ⟨7, some ⟨41, none⟩⟩ =
        .err .RandomnessNotResolved ∧
      applyTx ppPending (PancakeStacker.catch_pancake ppPending ⟨7, some ⟨41, none⟩⟩) =
        ppPending ∧
      (PancakeStacker.catch_pancake ppPending ⟨7, some ⟨41, some [3]⟩⟩).isOk = true) :=
  c6_settle_before_reveal 0 cfCommitted 7 41 [3] ppPending 7 41
    (by decide) (by decide) (by decide)

/-- C7: the settlement outcome is a deterministic function of the
revealed value: the coin-flip result is the parity of the first byte
(`firstByte v mod 2 == 0`, recorded in `latest_flip_result`; a losing
player forfeits the stake — no lamports move), and the pancake lands iff
`firstByte v mod 3 < 2`, incrementing the stack on a land and resetting
it to zero on a fall. -/
theorem c7_outcome_deterministic (rent_min : Nat)
    (ctx out : SbRandomness.GameCtx) (k seed : Nat) (v : List Nat)
    (ps : PancakeStacker.PlayerState) (kp seedp : Nat)
    (hout : SbRandomness.settle_flip rent_min ctx ⟨k, some ⟨seed, some v⟩⟩ =
      .ok out)
    (hp : ps.has_pending_flip = true)
    (hk : kp = ps.randomness_account)
    (hs : seedp = ps.commit_slot) :
    (out.player_state.latest_flip_result = (firstByte v % 2 == 0) ∧
      (¬ ((firstByte v % 2 == 0) = ctx.player_state.current_guess) →
        out.escrow_lamports = ctx.escrow_lamports ∧
        out.user_lamports = ctx.user_lamports)) ∧
    (firstByte v % 3 < 2 →
      PancakeStacker.catch_pancake ps ⟨kp, some ⟨seedp, some v⟩⟩ =
        .ok { ps with
              has_pending_flip := false
              randomness_account := 0
              stack_height := ps.stack_height + 1 }) ∧
    (¬ firstByte v % 3 < 2 →
      PancakeStacker.catch_pancake ps ⟨kp, some ⟨seedp, some v⟩⟩ =
        .ok { ps with
              has_pending_flip := false
              randomness_account := 0
              stack_height := 0 }) :=
  ⟨SbRandomness.settle_flip_ok_result rent_min ctx out k seed v hout,
   fun hl => PancakeStacker.catch_pancake_land ps kp seedp v hp hk hs hl,
   fun hl => PancakeStacker.catch_pancake_fall ps kp seedp v hp hk hs hl⟩

/-- C7 witness: revealed byte 3 — coin flip records tails (3 is odd) and
the losing player's stake stays in escrow; the pancake lands
(3 mod 3 = 0 < 2) and the stack grows from 4 to 5. -/
theorem c7_outcome_deterministic_witness :
    (cfCommitted.player_state.latest_flip_result = (firstByte [3] % 2 == 0) ∧
      (¬ ((firstByte [3] % 2 == 0) = cfCommitted.player_state.current_guess) →
        cfCommitted.escrow_lamports = cfCommitted.escrow_lamports ∧
        cfCommitted.user_lamports = cfCommitted.user_lamports)) ∧
    (firstByte [3] % 3 < 2 →
      PancakeStacker.catch_pancake ppPending ⟨7, some ⟨41, some [3]⟩⟩ =
        .ok { ppPending with
              has_pending_flip := false
              randomness_account := 0
              stack_height := ppPending.stack_height + 1 }) ∧
    (¬ firstByte [3] % 3 < 2 →
      PancakeStacker.catch_pancake ppPending ⟨7, some ⟨41, some [3]⟩⟩ =
        .ok { ppPending with
              has_pending_flip := false
              randomness_account := 0
              stack_height := 0 }) :=
  c7_outcome_deterministic 0 cfCommitted cfCommitted 7 41 [3] ppPending 7 41
    (by decide) (by decide) (by decide) (by decide)

/-- C8: the claim as stated is false: with wager 100 and escrow balance
1000 — which covers the 200-lamport payout — a winning settle under the
realistic rent-exempt minimum of 890880 lamports (a 0-data account) pays
nothing: the code requires the escrow to cover `wager * 2 + rent_min`,
not just the payout, so the claim's wager=100/escrow=1000 example does
not debit 200. -/
theorem c8_counterexample :
    cfCommitted.player_state.wager * 2 ≤ cfCommitted.escrow_lamports ∧
    SbRandomness.settle_flip 890880 cfCommitted rinWin7 = .ok cfDeferred ∧
    cfDeferred.escrow_lamports = cfCommitted.escrow_lamports ∧
    cfDeferred.user_lamports = cfCommitted.user_lamports := by
  decide

/-- C8 (amended): on a winning settle the player is paid double the
wager out of escrow iff the escrow balance covers `wager * 2` plus the
escrow account's rent-exempt minimum; otherwise the settle still
succeeds (deferred payout is only logged) with balances unchanged.  The
claim's wager=100/escrow=1000 example holds exactly when the rent
minimum is at most 800. -/
theorem c8_win_payout_iff_covered (rent_min : Nat)
    (ctx : SbRandomness.GameCtx) (k seed : Nat) (v : List Nat)
    (hwin : (firstByte v % 2 == 0) = ctx.player_state.current_guess) :
    (ctx.player_state.wager * 2 + rent_min ≤ ctx.escrow_lamports →
      SbRandomness.settle_flip rent_min ctx ⟨k, some ⟨seed, some v⟩⟩ =
        .ok { player_state :=
                { ctx.player_state with
                  latest_flip_result := firstByte v % 2 == 0 },
              user_lamports := ctx.user_lamports + ctx.player_state.wager * 2,
              escrow_lamports := ctx.escrow_lamports - ctx.player_state.wager * 2 }) ∧
    (ctx.escrow_lamports < ctx.player_state.wager * 2 + rent_min →
      SbRandomness.settle_flip rent_min ctx ⟨k, some ⟨seed, some v⟩⟩ =
        .ok { ctx with
              player_state :=
                { ctx.player_state with
                  latest_flip_result := firstByte v % 2 == 0 } }) :=
  ⟨fun he => SbRandomness.settle_flip_win_paid rent_min ctx k seed v hwin he,
   fun he => SbRandomness.settle_flip_win_deferred rent_min ctx k seed v hwin he⟩

/-- C8 witness: with rent minimum 800, wager 100 and escrow 1000, the
winning settle debits the escrow by 200 and credits the player 200
(`cfCommitted` → `cfWon`). -/
theorem c8_win_payout_iff_covered_witness :
    (cfCommitted.player_state.wager * 2 + 800 ≤ cfCommitted.escrow_lamports →
      SbRandomness.settle_flip 800 cfCommitted ⟨7, some ⟨41, some [2]⟩⟩ =
        .ok { player_state :=
                { cfCommitted.player_state with
                  latest_flip_result := firstByte [2] % 2 == 0 },
              user_lamports := cfCommitted.user_lamports +
                cfCommitted.player_state.wager * 2,
              escrow_lamports := cfCommitted.escrow_lamports -
                cfCommitted.player_state.wager * 2 }) ∧
    (cfCommitted.escrow_lamports < cfCommitted.player_state.wager * 2 + 800 →
      SbRandomness.settle_flip 800 cfCommitted ⟨7, some ⟨41, some [2]⟩⟩ =
        .ok { cfCommitted with
              player_state :=
                { cfCommitted.player_state with
                  latest_flip_result := firstByte [2] % 2 == 0 } }) :=
  c8_win_payout_iff_covered 800 cfCommitted 7 41 [2] (by decide)

/-- C9: the claim's "(and seed checkpoint)" is false for the coin-flip
program, whose commit is the one that transfers the wager: two
successful `coin_flip` commits at different slots, against randomness
accounts whose seed checkpoints differ (9 versus 41), produce the
identical persisted player state and balances — the coin-flip
`PlayerState` has no field in which a seed checkpoint could be
recorded. -/
theorem c9_counterexample :
    SbRandomness.coin_flip 10 cfIdle 5 true ⟨5, some ⟨9, none⟩⟩ = .ok cfAfter1 ∧
    SbRandomness.coin_flip 42 cfIdle 5 true ⟨5, some ⟨41, none⟩⟩ = .ok cfAfter1 ∧
    (⟨9, none⟩ : RandomnessAccountData).seed_slot ≠
      (⟨41, none⟩ : RandomnessAccountData).seed_slot := by
  decide

/-- C9 (amended): a successful coin-flip commit transfers exactly the
wager from the user to the escrow and records the randomness reference
(only the pancake-stacker commit, which moves no funds, also records the
seed checkpoint, in `commit_slot`; the coin-flip player state has no
such field); with an insufficient user balance the coin-flip commit
fails with `NotEnoughFundsToPlay` and nothing persists; and no settle
ever moves funds from the player into the escrow (the persisted escrow
balance never grows and the user balance never shrinks across a
settle). -/
theorem c9_commit_moves_wager (slot rent_min : Nat)
    (ctx pctx sctx : SbRandomness.GameCtx) (ra k : Nat) (guess : Bool)
    (rd : RandomnessAccountData) (rin : RandomnessAccountIn)
    (ps ps' : PancakeStacker.PlayerState) (kp : Nat)
    (hfresh : rd.seed_slot = slot - 1)
    (hfunds : ctx.player_state.wager ≤ ctx.user_lamports)
    (hpoor : pctx.user_lamports < pctx.player_state.wager)
    (hpflip : PancakeStacker.flip_pancake slot ps ra ⟨kp, some rd⟩ = .ok ps') :
    SbRandomness.coin_flip slot ctx ra guess ⟨k, some rd⟩ =
      .ok { player_state :=
              { ctx.player_state with
                current_guess := guess
                randomness_account := ra },
            user_lamports := ctx.user_lamports - ctx.player_state.wager,
            escrow_lamports := ctx.escrow_lamports + ctx.player_state.wager } ∧
    (SbRandomness.coin_flip slot pctx ra guess ⟨k, some rd⟩ =
        .err .NotEnoughFundsToPlay ∧
      applyTx pctx (SbRandomness.coin_flip slot pctx ra guess ⟨k, some rd⟩) =
        pctx) ∧
    ((applyTx sctx (SbRandomness.settle_flip rent_min sctx rin)).escrow_lamports ≤
        sctx.escrow_lamports ∧
      sctx.user_lamports ≤
        (applyTx sctx (SbRandomness.settle_flip rent_min sctx rin)).user_lamports) ∧
    (ps'.randomness_account = ra ∧ ps'.commit_slot = rd.seed_slot) := by
  have hinv := PancakeStacker.flip_pancake_ok_inv slot ps ps' ra kp rd hpflip
  refine ⟨?_, ⟨?_, ?_⟩, ?_, ?_, ?_⟩
  · exact SbRandomness.coin_flip_fresh_ok slot ctx ra k guess rd hfresh hfunds
  · exact SbRandomness.coin_flip_fresh_insufficient slot pctx ra k guess rd
      hfresh hpoor
  · rw [SbRandomness.coin_flip_fresh_insufficient slot pctx ra k guess rd
      hfresh hpoor]
    rfl
  · exact SbRandomness.settle_flip_no_escrow_credit rent_min sctx rin
  · exact hinv.2.2.1
  · exact hinv.2.2.2.1

/-- C9 witness: at slot 42, `cfIdle` commits 100 lamports into escrow
(`cfAfter7`); `cfPoor` cannot and fails; a settle of `cfCommitted` never
credits its escrow; and the pancake commit `ppIdle` → `ppCommitted`
records reference 7 and commit slot 41. -/
theorem c9_commit_moves_wager_witness :
    SbRandomness.coin_flip 42 cfIdle 7 true ⟨7, some ⟨41, none⟩⟩ =
      .ok { player_state :=
              { cfIdle.player_state with
                current_guess := true
                randomness_account := 7 },
            user_lamports := cfIdle.user_lamports - cfIdle.player_state.wager,
            escrow_lamports := cfIdle.escrow_lamports + cfIdle.player_state.wager } ∧
    (SbRandomness.coin_flip 42 cfPoor 7 true ⟨7, some ⟨41, none⟩⟩ =
        .err .NotEnoughFundsToPlay ∧
      applyTx cfPoor (SbRandomness.coin_flip 42 cfPoor 7 true ⟨7, some ⟨41, none⟩⟩) =
        cfPoor) ∧
    ((applyTx cfCommitted (SbRandomness.settle_flip 0 cfCommitted rinWin7)).escrow_lamports ≤
        cfCommitted.escrow_lamports ∧
      cfCommitted.user_lamports ≤
        (applyTx cfCommitted (SbRandomness.settle_flip 0 cfCommitted rinWin7)).user_lamports) ∧
    (ppCommitted.randomness_account = 7 ∧
      ppCommitted.commit_slot = (⟨41, none⟩ : RandomnessAccountData).seed_slot) :=
  c9_commit_moves_wager 42 0 cfIdle cfPoor cfCommitted 7 7 true ⟨41, none⟩
    rinWin7 ppIdle ppCommitted 7 (by decide) (by decide) (by decide) (by decide)

/-- C10: when the randomness account bytes cannot be parsed, the
coin-flip handlers panic (`parse(...).unwrap()`), while the
pancake-stacker handlers return the `InvalidRandomnessAccount` error. -/
theorem c10_parse_failure_behavior (slot rent_min : Nat)
    (ctx : SbRandomness.GameCtx) (ra k1 k2 k3 kp : Nat) (guess : Bool)
    (ps qs : PancakeStacker.PlayerState)
    (hidle : ps.has_pending_flip = false)
    (hp : qs.has_pending_flip = true)
    (hk : kp = qs.randomness_account) :
    SbRandomness.coin_flip slot ctx ra guess ⟨k1, none⟩ = .panicked ∧
    SbRandomness.settle_flip rent_min ctx ⟨k2, none⟩ = .panicked ∧
    PancakeStacker.flip_pancake slot ps ra ⟨k3, none⟩ =
      .err .InvalidRandomnessAccount ∧
    PancakeStacker.catch_pancake qs ⟨kp, none⟩ =
      .err .InvalidRandomnessAccount :=
  ⟨SbRandomness.coin_flip_parse_panics slot ctx ra k1 guess,
   SbRandomness.settle_flip_parse_panics rent_min ctx k2,
   PancakeStacker.flip_pancake_parse_fail slot ps ra k3 hidle,
   PancakeStacker.catch_pancake_parse_fail qs kp hp hk⟩

/-- C10 witness: unparseable account 9 panics both coin-flip handlers
and errors both pancake handlers. -/
theorem c10_parse_failure_behavior_witness :
    SbRandomness.coin_flip 42 cfIdle 5 true ⟨9, none⟩ = .panicked ∧
    SbRandomness.settle_flip 0 cfIdle ⟨9, none⟩ = .panicked ∧
    PancakeStacker.flip_pancake 42 ppIdle 5 ⟨9, none⟩ =
      .err .InvalidRandomnessAccount ∧
    PancakeStacker.catch_pancake ppPending ⟨7, none⟩ =
      .err .InvalidRandomnessAccount :=
  c10_parse_failure_behavior 42 0 cfIdle 5 9 9 9 7 true ppIdle ppPending
    (by decide) (by decide) (by decide)

end SbExamples
